import Mathlib

/- Shallow embedding of the bdf PDF reader core: the byte predicates
   (src/chars.rs), the slice scanners (src/slice_utils.rs), the tokenizer
   (src/tokens.rs), the two object parsers (src/objects.rs and
   src/parsing/objects.rs) and the file reader (src/pdf_file.rs and
   src/parsing/pdf_file.rs, which are line for line identical up to the
   extra resolve method of the latter).

   Modelling conventions:
   - a byte is a Nat (the Rust u8 value), a buffer is a List Nat, and the
     Rust pattern of returning (value, remaining subslice) is kept as
     returning (value, remaining list);
   - fallible Rust functions return Except Failure; Failure.err e is the
     Rust Err(e) value, while Failure.crash stands for a Rust panic
     (an out of range slice index, an arithmetic underflow, a failed
     unwrap), which is NOT an Error value in the Rust sense;
   - machine integers are Nat with explicit bounds or mod where the Rust
     code narrows (usize parses are bounded by 2 to the 64, u32 casts take
     mod 2 to the 32, u16 casts take mod 2 to the 16);
   - f64 is not shallow-embeddable; a Real token stores the source text of
     the number, validated by the same success condition as the Rust f64
     FromStr parse restricted to the numeric-char alphabet. No claim
     depends on float arithmetic. -/

/-- Bytes of a string literal, for writing byte-sequence constants. -/
def strBytes (s : String) : List Nat := s.toList.map Char.toNat

/-- The error enum of src/error.rs. The Syntax variant of the source carries
a static message plus a diagnostic snippet String; the snippet is dropped
here (building it is what can crash, see syn_or_crash) and only the static
message is kept. The unknownFilter variant is the Error::UnknownFilter
used by src/parsing/objects.rs; its declaration file is a newer error.rs
not present under src, and it is listed by the spec error taxonomy. -/
inductive Error where
  | eof
  | ioErr (s : String)
  | notLoaded (s : String)
  | objectNotFound (number generation : Nat)
  | parseFloat
  | parseInt
  | synErr (msg : String)
  | unknownFilter (n : List Nat)
deriving DecidableEq

/-- Outcome of running a fallible Rust function: an Ok value, an Err value,
or a panic (crash), which Rust does not represent as a value at all. -/
inductive Failure where
  | err (e : Error)
  | crash
deriving DecidableEq

/- ===== src/chars.rs ===== -/

/-- WHITESPACE_CHARACTERS = NUL HT LF FF CR SP (chars.rs). -/
def is_whitespace_char (c : Nat) : Bool :=
  c = 0 || c = 9 || c = 10 || c = 12 || c = 13 || c = 32

/-- NEWLINE_CHARACTERS = LF CR (chars.rs). -/
def is_newline_char (c : Nat) : Bool :=
  c = 10 || c = 13

/-- Roman alphabet check (chars.rs). -/
def is_alphabetic_char (c : Nat) : Bool :=
  (97 ≤ c && c ≤ 122) || (65 ≤ c && c ≤ 90)

/-- DELIMETER_CHARACTERS = ( ) < > [ ] { } / % (chars.rs). -/
def is_delimiter_char (c : Nat) : Bool :=
  c = 40 || c = 41 || c = 60 || c = 62 || c = 91 || c = 93 ||
  c = 123 || c = 125 || c = 47 || c = 37

/-- Name characters: not a delimiter and not whitespace (chars.rs). -/
def is_name_char (c : Nat) : Bool :=
  !(is_delimiter_char c) && !(is_whitespace_char c)

/-- Numeric-token characters: + - . and the digits (chars.rs). -/
def is_numeric_char (c : Nat) : Bool :=
  c = 43 || c = 45 || c = 46 || (48 ≤ c && c ≤ 57)

/-- peek_char (chars.rs): first byte, or Err(Error::EOF) on the empty
buffer. -/
def peek_char : List Nat → Except Failure Nat
  | [] => .error (.err .eof)
  | c :: _ => .ok c

/- ===== src/slice_utils.rs =====

   Both scanners compute buf.len() - seq.len() with usize subtraction and
   then index buf[i..i + len].  When seq.len() > buf.len() the subtraction
   underflows: a panic in debug builds, and in release builds the wrapped
   bound makes the very first loop iteration index out of range, also a
   panic.  Either way the Rust program crashes, which the model records as
   Failure.crash.  When seq.len() ≤ buf.len() every index is in range.
   Note the loop bound is exclusive: index buf.len() - seq.len() itself is
   never tried. -/

/-- Does seq occur in buf starting exactly at index i (buf[i..i+len] == seq,
with the range known to be in bounds at every call site below). -/
def seq_at (buf seq : List Nat) (i : Nat) : Bool :=
  (buf.drop i).take seq.length == seq

/-- Ascending scan of position_of_sequence: try indices i, i+1, ... for k
steps, returning the first hit. -/
def pos_asc (buf seq : List Nat) : Nat → Nat → Option Nat
  | _, 0 => none
  | i, k + 1 => if seq_at buf seq i then some i else pos_asc buf seq (i + 1) k

/-- position_of_sequence (slice_utils.rs): first occurrence of seq in buf
among indices 0 .. buf.len() - seq.len() exclusive. -/
def position_of_sequence (buf seq : List Nat) : Except Failure (Option Nat) :=
  if seq.length ≤ buf.length then
    .ok (pos_asc buf seq 0 (buf.length - seq.length))
  else
    .error .crash

/-- Descending scan of last_position_of_sequence: try indices n-1, n-2, ...,
0, returning the first (that is, the largest) hit. -/
def lpos_desc (buf seq : List Nat) : Nat → Option Nat
  | 0 => none
  | n + 1 => if seq_at buf seq n then some n else lpos_desc buf seq n

/-- last_position_of_sequence (slice_utils.rs): last occurrence of seq in
buf among indices 0 .. buf.len() - seq.len() exclusive. -/
def last_position_of_sequence (buf seq : List Nat) : Except Failure (Option Nat) :=
  if seq.length ≤ buf.length then
    .ok (lpos_desc buf seq (buf.length - seq.length))
  else
    .error .crash

/- ===== src/keywords.rs and src/parsing/keywords.rs ===== -/

def PDF_HEADER : List Nat := strBytes "%PDF-"
def EOF_MARKER : List Nat := strBytes "%%EOF\n"
def STARTXREF_KEYWORD : List Nat := strBytes "startxref"
def XREF_KEYWORD : List Nat := strBytes "xref"
def STREAM_KEYWORD : List Nat := strBytes "stream"
def ENDSTREAM_KEYWORD : List Nat := strBytes "endstream"
def TRAILER_KEYWORD : List Nat := strBytes "trailer"
def OBJ_KEYWORD : List Nat := strBytes "obj"
def ENDOBJ_KEYWORD : List Nat := strBytes "endobj"

/- ===== src/tokens.rs ===== -/

/-- Building a Syntax error in tokens.rs formats the snippet
String::from_utf8_lossy(&raw[..5]); when fewer than 5 bytes remain that
slice itself panics, so the Err value is only produced when 5 ≤ len. -/
def syn_or_crash {α : Type} (raw : List Nat) (msg : String) : Except Failure α :=
  if 5 ≤ raw.length then .error (.err (.synErr msg)) else .error .crash

/-- The Rust idiom `let mut length = 0; while p(peek_char(&raw[length..])?)
{ length += 1 }`: length of the maximal prefix satisfying p, failing with
EOF when the scan runs off the end of the buffer before seeing a byte that
fails p. -/
def scan_while (p : Nat → Bool) : List Nat → Except Failure Nat
  | [] => .error (.err .eof)
  | c :: rest =>
    if p c then
      match scan_while p rest with
      | .ok n => .ok (n + 1)
      | .error e => .error e
    else .ok 0

/-- parse_whitespace (tokens.rs) as a single structural loop. The source
has an outer whitespace loop with an inner comment loop that stops at (and
does not consume) the newline, which the outer loop then consumes as
whitespace; here the two loops are fused into one list traversal with an
in-comment flag, consuming the newline on leaving a comment, which is the
same byte-for-byte behaviour. Reaching end of input is Err(EOF). -/
def ws_loop : Bool → List Nat → Except Failure (Unit × List Nat)
  | _, [] => .error (.err .eof)
  | true, c :: rest =>
    if is_newline_char c then ws_loop false rest else ws_loop true rest
  | false, c :: rest =>
    if is_whitespace_char c then ws_loop false rest
    else if c = 37 then ws_loop true rest
    else .ok ((), c :: rest)

/-- parse_whitespace (tokens.rs). -/
def parse_whitespace (raw : List Nat) : Except Failure (Unit × List Nat) :=
  ws_loop false raw

/-- ASCII digit. -/
def is_digit_char (c : Nat) : Bool := 48 ≤ c && c ≤ 57

/-- Decimal value of a digit string. -/
def digitsToNat (s : List Nat) : Nat :=
  s.foldl (fun a c => a * 10 + (c - 48)) 0

/-- Success condition and value of a Rust unsigned-integer FromStr parse
(usize with bound 2^64, u32 with bound 2^32, u16 with bound 2^16): one
optional leading plus sign, then a nonempty digit run, value below the
bound. A minus sign is not accepted by the unsigned parsers. -/
def rust_parse_unsigned (bound : Nat) (s : List Nat) : Option Nat :=
  let t := match s with
    | c :: rest => if c = 43 then rest else s
    | [] => s
  if t = [] then none
  else if t.all is_digit_char then
    let v := digitsToNat t
    if v < bound then some v else none
  else none

/-- Success condition of the Rust f64 FromStr parse restricted to the
numeric-char alphabet fed to it by parse_numeric: one optional sign, at
most one dot, at least one digit, nothing else. -/
def rust_parse_f64_ok (s : List Nat) : Bool :=
  let t := match s with
    | c :: rest => if c = 43 || c = 45 then rest else s
    | [] => []
  t.any is_digit_char &&
  t.all (fun c => is_digit_char c || c = 46) &&
  decide (t.count 46 ≤ 1)

/-- parse_number (tokens.rs): skip whitespace, scan the numeric-char run,
parse it with the unsigned integer parser of the instantiated type
(bound = 2^64 for usize, 2^32 for u32). -/
def parse_number (bound : Nat) (raw : List Nat) : Except Failure (Nat × List Nat) :=
  match parse_whitespace raw with
  | .error e => .error e
  | .ok ((), r1) =>
    match scan_while is_numeric_char r1 with
    | .error e => .error e
    | .ok n =>
      match rust_parse_unsigned bound (r1.take n) with
      | none => .error (.err .parseInt)
      | some v => .ok (v, r1.drop n)

/-- parse_keyword (tokens.rs): the maximal alphabetic run. -/
def parse_keyword (raw : List Nat) : Except Failure (List Nat × List Nat) :=
  match scan_while is_alphabetic_char raw with
  | .error e => .error e
  | .ok n => .ok (raw.take n, raw.drop n)

/-- The token enum of tokens.rs. Integer carries a usize (Nat below 2^64 by
construction); Real carries the validated source text of the f64. -/
inductive Token where
  | keyword (k : List Nat)
  | integer (i : Nat)
  | real (text : List Nat)
  | literalString (s : List Nat)
  | hexadecimalString (s : List Nat)
  | name (n : List Nat)
  | beginArray
  | endArray
  | beginDictionary
  | endDictionary
  | stream (s : List Nat)

/-- parse_numeric (tokens.rs): scan the maximal numeric-char run; if it
contains a dot parse it as f64 (Real), else as usize (Integer). -/
def parse_numeric (raw : List Nat) : Except Failure (Token × List Nat) :=
  match scan_while is_numeric_char raw with
  | .error e => .error e
  | .ok n =>
    let text := raw.take n
    if text.contains 46 then
      if rust_parse_f64_ok text then .ok (.real text, raw.drop n)
      else .error (.err .parseFloat)
    else
      match rust_parse_unsigned (2 ^ 64) text with
      | none => .error (.err .parseInt)
      | some v => .ok (.integer v, raw.drop n)

/-- Octal digit. -/
def is_octal_char (c : Nat) : Bool := 48 ≤ c && c < 56

/-- Octal value of a digit string. -/
def octToNat (s : List Nat) : Nat :=
  s.foldl (fun a c => a * 8 + (c - 48)) 0

/-- u8::from_str_radix(s, 8): nonempty octal digit run, value below 256. -/
def oct_parse (s : List Nat) : Option Nat :=
  if s = [] then none
  else if s.all is_octal_char then
    let v := octToNat s
    if v < 256 then some v else none
  else none

/-- parse_escape_sequence (tokens.rs). Returns the produced byte (none for
a line continuation) and the rest. Notable source behaviour kept here:
an octal run longer than 255 or an empty octal candidate is Err(ParseInt);
a backslash-CR and backslash-CR-LF produce an LF byte (only backslash-LF
produces nothing). -/
def parse_escape_sequence (raw : List Nat) : Except Failure (Option Nat × List Nat) :=
  match raw with
  | [] => .error (.err .eof)
  | c :: rest =>
    if c ≠ 92 then syn_or_crash raw "Escape Sequence must start with a backslash"
    else
      let fno := (rest.take 3).findIdx? (fun d => !(is_octal_char d))
      if fno ≠ some 0 then
        let digit_count := match fno with
          | some n => n
          | none => min 3 (raw.length - 1)
        match oct_parse (rest.take digit_count) with
        | none => .error (.err .parseInt)
        | some b => .ok (some b, raw.drop (1 + digit_count))
      else
        match rest with
        | [] => .error (.err .eof)
        | e :: rest2 =>
          if e = 110 then .ok (some 10, rest2)
          else if e = 114 then .ok (some 10, rest2)
          else if e = 116 then .ok (some 9, rest2)
          else if e = 98 then .ok (some 8, rest2)
          else if e = 102 then .ok (some 12, rest2)
          else if e = 40 || e = 41 || e = 92 then .ok (some e, rest2)
          else if e = 10 then .ok (none, rest2)
          else if e = 13 then
            if rest2.head? = some 10 then .ok (some 10, rest2.tail)
            else .ok (some 10, rest2)
          else syn_or_crash raw "Invalid escape sequence"

/-- The bracket-balance scan of parse_literal_string (tokens.rs): number of
bytes consumed after the opening paren until depth returns to zero, plus
the requires_extra_processing flag (set on every backslash or CR seen at a
scan position). A backslash skips the following byte without a bounds
check; when the backslash is the last byte the next loop iteration slices
past the end of the buffer, a panic. -/
def scan_lit (depth : Nat) (s : List Nat) : Except Failure (Nat × Bool) :=
  if depth = 0 then .ok (0, false)
  else
    match s with
    | [] => .error (.err .eof)
    | c :: rest =>
      if c = 40 then
        match scan_lit (depth + 1) rest with
        | .ok (n, f) => .ok (n + 1, f)
        | .error e => .error e
      else if c = 41 then
        match scan_lit (depth - 1) rest with
        | .ok (n, f) => .ok (n + 1, f)
        | .error e => .error e
      else if c = 92 then
        match rest with
        | [] => .error .crash
        | _ :: rest2 =>
          match scan_lit depth rest2 with
          | .ok (n, _) => .ok (n + 2, true)
          | .error e => .error e
      else if c = 13 then
        match scan_lit depth rest with
        | .ok (n, _) => .ok (n + 1, true)
        | .error e => .error e
      else
        match scan_lit depth rest with
        | .ok (n, f) => .ok (n + 1, f)
        | .error e => .error e

/-- The second pass of parse_literal_string (tokens.rs) over the region
between the parens: escapes via parse_escape_sequence, bare CR and CR LF
normalised to a single LF, everything else copied. The loop consumes at
least one byte per iteration, so fuel = region length always suffices and
the fuel-exhausted branch is unreachable. -/
def rls_process : Nat → List Nat → Except Failure (List Nat)
  | _, [] => .ok []
  | 0, _ :: _ => .error .crash
  | fuel + 1, 92 :: rest =>
    match parse_escape_sequence (92 :: rest) with
    | .error e => .error e
    | .ok (some b, next) =>
      match rls_process fuel next with
      | .ok bs => .ok (b :: bs)
      | .error e => .error e
    | .ok (none, next) => rls_process fuel next
  | fuel + 1, 13 :: rest =>
    match (match rest with
           | 10 :: rest2 => rls_process fuel rest2
           | _ => rls_process fuel rest) with
    | .ok bs => .ok (10 :: bs)
    | .error e => .error e
  | fuel + 1, c :: rest =>
    match rls_process fuel rest with
    | .ok bs => .ok (c :: bs)
    | .error e => .error e

/-- parse_literal_string (tokens.rs). Indexing raw[0] on an empty buffer is
a panic. -/
def parse_literal_string (raw : List Nat) : Except Failure (List Nat × List Nat) :=
  match raw with
  | [] => .error .crash
  | c :: rest =>
    if c ≠ 40 then syn_or_crash raw "Literal String must start with an open paren"
    else
      match scan_lit 1 rest with
      | .error e => .error e
      | .ok (cnt, extra) =>
        let region := rest.take (cnt - 1)
        if extra then
          match rls_process region.length region with
          | .error e => .error e
          | .ok bytes => .ok (bytes, raw.drop (1 + cnt))
        else .ok (region, raw.drop (1 + cnt))

/-- Hex digit value, upper or lower case. -/
def hexVal (c : Nat) : Option Nat :=
  if 48 ≤ c && c ≤ 57 then some (c - 48)
  else if 97 ≤ c && c ≤ 102 then some (c - 87)
  else if 65 ≤ c && c ≤ 70 then some (c - 55)
  else none

/-- u8::from_str_radix on the two-byte string [a, b] with radix 16. The
Rust parser accepts one leading plus sign, so a plus followed by one hex
digit is that digit. -/
def hex_pair (a b : Nat) : Option Nat :=
  if a = 43 then hexVal b
  else
    match hexVal a, hexVal b with
    | some x, some y => some (16 * x + y)
    | _, _ => none

/-- The nibble-pairing loop of parse_hexadecimal_string (tokens.rs) over
the region between the angle brackets: skip whitespace (comments
included), pair bytes, Err(ParseInt) on a non-hex pair. parse_whitespace
fails with EOF when the remaining region is all whitespace, and that
error propagates, so a region with trailing whitespace is Err(EOF).
Returns the bytes and the leftover unpaired nibble. Fuel = region length
suffices since every iteration consumes at least one byte; after a
successful parse_whitespace the remainder is never empty, so the inner
empty case is unreachable. -/
def hex_loop : Nat → Option Nat → List Nat → Except Failure (List Nat × Option Nat)
  | _, last, [] => .ok ([], last)
  | 0, _, _ :: _ => .error .crash
  | fuel + 1, last, h :: t =>
    match parse_whitespace (h :: t) with
    | .error e => .error e
    | .ok ((), hex2) =>
      match hex2 with
      | [] => .error .crash
      | c :: hex3 =>
        match last with
        | none => hex_loop fuel (some c) hex3
        | some l =>
          match hex_pair l c with
          | none => .error (.err .parseInt)
          | some b =>
            match hex_loop fuel none hex3 with
            | .ok (bs, lf) => .ok (b :: bs, lf)
            | .error e => .error e

/-- parse_hexadecimal_string (tokens.rs). The missing-closing-bracket
error message snippet raw[..5] is built eagerly as the ok_or argument,
before the question mark operator looks at the Option, so any buffer
shorter than 5 bytes panics here even when the closing bracket exists. -/
def parse_hexadecimal_string (raw : List Nat) : Except Failure (List Nat × List Nat) :=
  match raw with
  | [] => .error .crash
  | c :: rest =>
    if c ≠ 60 then syn_or_crash raw "Hexadecimal String must start with a less-than sign"
    else if raw.length < 5 then .error .crash
    else
      match raw.findIdx? (fun d => d = 62) with
      | none => .error (.err (.synErr "Hexadecimal String must end with a greater-than sign"))
      | some p =>
        let region := rest.take (p - 1)
        match hex_loop region.length none region with
        | .error e => .error e
        | .ok (bytes, last) =>
          match last with
          | none => .ok (bytes, raw.drop (p + 1))
          | some l =>
            match hex_pair l 48 with
            | none => .error (.err .parseInt)
            | some b => .ok (bytes ++ [b], raw.drop (p + 1))

/-- The hash-escape decode loop of parse_name (tokens.rs), over the suffix
after the leading slash, processing the first n bytes (the name run).
On a hash the two following bytes are sliced from the full buffer, even
past the end of the name run; if fewer than two bytes exist in the whole
buffer the slice panics. The index then advances by three and the loop
exits as soon as it reaches or passes the run length. -/
def unescape_name : List Nat → Nat → Except Failure (List Nat)
  | _, 0 => .ok []
  | [], _ + 1 => .error .crash
  | 35 :: rest, n + 1 =>
    match rest with
    | a :: b :: rest2 =>
      match hex_pair a b with
      | none => .error (.err .parseInt)
      | some v =>
        if n + 1 > 3 then
          match unescape_name rest2 (n - 2) with
          | .ok bs => .ok (v :: bs)
          | .error e => .error e
        else .ok [v]
    | _ => .error .crash
  | c :: rest, n + 1 =>
    match unescape_name rest n with
    | .ok bs => .ok (c :: bs)
    | .error e => .error e

/-- parse_name (tokens.rs). -/
def parse_name (raw : List Nat) : Except Failure (List Nat × List Nat) :=
  match raw with
  | [] => .error (.err .eof)
  | c :: rest =>
    if c ≠ 47 then syn_or_crash raw "Name must start with a slash"
    else
      match scan_while is_name_char rest with
      | .error e => .error e
      | .ok n =>
        if (rest.take n).contains 35 then
          match unescape_name rest n with
          | .error e => .error e
          | .ok nm => .ok (nm, rest.drop n)
        else .ok (rest.take n, rest.drop n)

/-- The endstream search of parse_to_end_of_stream (tokens.rs). -/
def stream_body (raw : List Nat) : Except Failure (List Nat × List Nat) :=
  match position_of_sequence raw ENDSTREAM_KEYWORD with
  | .error e => .error e
  | .ok none => .error (.err .eof)
  | .ok (some len) => .ok (raw.take len, raw.drop (len + ENDSTREAM_KEYWORD.length))

/-- parse_to_end_of_stream (tokens.rs): exactly one EOL (LF or CR LF, a
lone CR is a syntax error) then the bytes up to the next endstream. -/
def parse_to_end_of_stream (raw : List Nat) : Except Failure (List Nat × List Nat) :=
  match raw with
  | [] => .error (.err .eof)
  | 10 :: rest => stream_body rest
  | 13 :: rest =>
    (match rest with
     | 10 :: rest2 => stream_body rest2
     | [] => .error (.err .eof)
     | _ :: _ => syn_or_crash raw "stream keyword must not be followed by just a CR")
  | _ :: _ => syn_or_crash raw "stream keyword must be followed by an EOL"

/-- parse_token (tokens.rs): skip whitespace, then dispatch on the first
byte. -/
def parse_token (raw : List Nat) : Except Failure (Token × List Nat) :=
  match parse_whitespace raw with
  | .error e => .error e
  | .ok ((), r1) =>
    match r1 with
    | [] => .error (.err .eof)
    | c :: rest =>
      if is_numeric_char c then parse_numeric r1
      else if is_alphabetic_char c then
        match parse_keyword r1 with
        | .error e => .error e
        | .ok (kw, r2) =>
          if kw = STREAM_KEYWORD then
            match parse_to_end_of_stream r2 with
            | .error e => .error e
            | .ok (s, r3) => .ok (.stream s, r3)
          else .ok (.keyword kw, r2)
      else if c = 47 then
        match parse_name r1 with
        | .error e => .error e
        | .ok (n, r2) => .ok (.name n, r2)
      else if c = 40 then
        match parse_literal_string r1 with
        | .error e => .error e
        | .ok (s, r2) => .ok (.literalString s, r2)
      else if c = 60 then
        match rest with
        | [] => .error (.err .eof)
        | d :: _ =>
          if d = 60 then .ok (.beginDictionary, r1.drop 2)
          else
            match parse_hexadecimal_string r1 with
            | .error e => .error e
            | .ok (s, r2) => .ok (.hexadecimalString s, r2)
      else if c = 62 then
        match rest with
        | [] => .error (.err .eof)
        | d :: _ =>
          if d = 62 then .ok (.endDictionary, r1.drop 2)
          else syn_or_crash r1 "Expected a second greater-than sign"
      else if c = 91 then .ok (.beginArray, rest)
      else if c = 93 then .ok (.endArray, rest)
      else syn_or_crash r1 "Unrecognised token"

/- ===== src/objects.rs: the object model ===== -/

/-- IndirectRef (objects.rs): `number` is a u32 and `generation` a u16 in
the source; here both are Nat, kept below 2^32 and 2^16 by the explicit
mod taken where the source casts. -/
structure IndirectRef where
  number : Nat
  generation : Nat
deriving DecidableEq

/-- The Object sum type. The src/objects.rs variant stores a stream as
Stream(HashMap, bytes) while the newer Object used by src/parsing/objects.rs
stores Stream(Box(Object), bytes); the single constructor
`stream (d : Object) body` covers both, the legacy parser always putting a
`dictionary` in the first slot. HashMap dictionaries are association
lists in which a later insert shadows an earlier binding by sitting closer
to the head; lookup takes the first hit. -/
inductive Object where
  | boolean (b : Bool)
  | integer (i : Nat)
  | real (text : List Nat)
  | string (s : List Nat)
  | name (n : List Nat)
  | array (xs : List Object)
  | dictionary (d : List (List Nat × Object))
  | stream (d : Object) (body : List Nat)
  | null
  | indirect (r : IndirectRef)

/-- HashMap::get with unwrap_or(&Null): first binding of the key, or Null. -/
def dict_get (d : List (List Nat × Object)) (k : List Nat) : Object :=
  match d.find? (fun e => e.1 == k) with
  | some e => e.2
  | none => .null

/-- The Index impl of objects.rs: indexing a Dictionary looks the key up
(Null when absent), indexing anything else is Null. -/
def objGet (o : Object) (k : List Nat) : Object :=
  match o with
  | .dictionary d => dict_get d k
  | _ => .null

/-- Modelled from the spec: the IntoIterator impl for Object references
used by process_stream is declared in a newer objects.rs not present under
src. Spec section 6: iteration yields the inner elements of an Array, is
empty for Null, and yields the object itself once for anything else. -/
def objIter : Object → List Object
  | .array xs => xs
  | .null => []
  | o => [o]

/-- Modelled from the spec: Object::as_int, declared in a newer objects.rs
not present under src. Spec sections 6 and 7: the typed value, or a
TypeMismatch error, which is a Syntax subkind. -/
def as_int : Object → Except Failure Nat
  | .integer i => .ok i
  | _ => .error (.err (.synErr "TypeMismatch"))

/-- Modelled from the spec: Object::as_name, declared in a newer objects.rs
not present under src. Spec sections 6 and 7: the typed value, or a
TypeMismatch error, which is a Syntax subkind. -/
def as_name : Object → Except Failure (List Nat)
  | .name n => .ok n
  | _ => .error (.err (.synErr "TypeMismatch"))

/-- Is the object a Dictionary. -/
def isDictionary : Object → Bool
  | .dictionary _ => true
  | _ => false

/-- ParseStackEntry, shared shape of objects.rs and parsing/objects.rs.
The Vec stack is modelled with its TOP AT THE HEAD of the list (Vec push
and pop act at the end; the reversal is fixed throughout and commented at
each scan). -/
inductive ParseStackEntry where
  | obj (o : Object)
  | beginArray
  | beginDictionary

def is_begin_array : ParseStackEntry → Bool
  | .beginArray => true
  | _ => false

def is_begin_dictionary : ParseStackEntry → Bool
  | .beginDictionary => true
  | _ => false

/-- Unwrap a popped-off stack segment into objects (array collection of
both parsers): every entry must be Obj. The segment is given bottom-to-top
as the drain yields it. -/
def objs_of_entries : List ParseStackEntry → Option (List Object)
  | [] => some []
  | .obj o :: rest =>
    match objs_of_entries rest with
    | some os => some (o :: os)
    | none => none
  | _ => none

/-- Consume a drained stack segment (bottom-to-top) in key/value pairs and
build the dictionary map (shared by both parsers, identical code and
messages). Sequential HashMap inserts let a later pair shadow an earlier
one; with head-first lookup that means prepending each new pair. -/
def dict_of_entries : List ParseStackEntry → List (List Nat × Object) →
    Except Failure (List (List Nat × Object))
  | [], acc => .ok acc
  | .obj (.name key) :: rest, acc =>
    (match rest with
     | .obj v :: rest2 => dict_of_entries rest2 ((key, v) :: acc)
     | _ => .error (.err (.synErr "Could not find value in dictionary")))
  | _ :: _, _ => .error (.err (.synErr "Misplaced token inside dictionary"))

/- ===== src/objects.rs: the legacy parser ===== -/

namespace Objects

/-- Outcome of one iteration of the legacy parse loop: keep looping with a
new stack, or return the finished object. -/
inductive StepResult where
  | next (stack : List ParseStackEntry)
  | finished (o : Object)

/-- One iteration of the match inside parse_object_until_keyword of
src/objects.rs (lines 59-203), acting on the current stack and the token
just read. Notable source behaviour kept here: the end-keyword arm takes
stack.into_iter().next(), the BOTTOM of the stack (the last element of the
head-is-top list); a Stream token insists the popped top be a Dictionary;
the R arm narrows with wrapping casts (mod 2^32 and mod 2^16). -/
def handle_token (end_keyword : List Nat) (stack : List ParseStackEntry) :
    Token → Except Failure StepResult
  | .keyword k =>
    if k = end_keyword then
      match stack.getLast? with
      | some (.obj o) => .ok (.finished o)
      | _ => .error (.err (.synErr "Encountered end keyword without reading a full object"))
    else if k = strBytes "true" then .ok (.next (.obj (.boolean true) :: stack))
    else if k = strBytes "false" then .ok (.next (.obj (.boolean false) :: stack))
    else if k = strBytes "null" then .ok (.next (.obj .null :: stack))
    else if k = strBytes "R" then
      match stack with
      | .obj (.integer g) :: .obj (.integer n) :: rest =>
        .ok (.next (.obj (.indirect ⟨n % 2 ^ 32, g % 2 ^ 16⟩) :: rest))
      | _ => .error (.err (.synErr "Could not find integers for indirect object"))
    else .error (.err (.synErr "Unrecognized keyword"))
  | .integer i => .ok (.next (.obj (.integer i) :: stack))
  | .real x => .ok (.next (.obj (.real x) :: stack))
  | .literalString s => .ok (.next (.obj (.string s) :: stack))
  | .hexadecimalString s => .ok (.next (.obj (.string s) :: stack))
  | .name n => .ok (.next (.obj (.name n) :: stack))
  | .beginArray => .ok (.next (.beginArray :: stack))
  | .endArray =>
    (match stack.findIdx? is_begin_array with
     | none => .error (.err (.synErr "Could not find start of array"))
     | some k =>
       match objs_of_entries (stack.take k).reverse with
       | none => .error (.err (.synErr "Unrecognized token inside array"))
       | some os => .ok (.next (.obj (.array os) :: stack.drop (k + 1))))
  | .beginDictionary => .ok (.next (.beginDictionary :: stack))
  | .endDictionary =>
    (match stack.findIdx? is_begin_dictionary with
     | none => .error (.err (.synErr "Could not find start of dictionary"))
     | some k =>
       match dict_of_entries (stack.take k).reverse [] with
       | .error e => .error e
       | .ok d => .ok (.next (.obj (.dictionary d) :: stack.drop (k + 1))))
  | .stream s =>
    match stack with
    | .obj (.dictionary d) :: rest =>
      .ok (.next (.obj (.stream (.dictionary d) s) :: rest))
    | _ => .error (.err (.synErr "Could not find stream dictionary"))

/-- The driving loop of parse_object_until_keyword (objects.rs). Every
parse_token success consumes at least one byte, so fuel = buffer length
plus one suffices and the fuel-exhausted branch is unreachable. -/
def parse_loop (end_keyword : List Nat) :
    Nat → List Nat → List ParseStackEntry → Except Failure (Object × List Nat)
  | 0, _, _ => .error .crash
  | fuel + 1, raw, stack =>
    match parse_token raw with
    | .error e => .error e
    | .ok (t, raw2) =>
      match handle_token end_keyword stack t with
      | .error e => .error e
      | .ok (.finished o) => .ok (o, raw2)
      | .ok (.next stack2) => parse_loop end_keyword fuel raw2 stack2

/-- parse_object_until_keyword (src/objects.rs). -/
def parse_object_until_keyword (raw : List Nat) (end_keyword : List Nat) :
    Except Failure (Object × List Nat) :=
  parse_loop end_keyword (raw.length + 1) raw []

end Objects

/- ===== src/parsing/objects.rs: the newer parser ===== -/

namespace Parsing

/-- ParseStack::pop_obj (parsing/objects.rs). -/
def pop_obj : List ParseStackEntry → Except Failure (Object × List ParseStackEntry)
  | .obj o :: rest => .ok (o, rest)
  | _ => .error (.err (.synErr "Could not pop argument"))

/-- ParseStack::pop_back_to (parsing/objects.rs): drain from the most
recent matching marker upward, skip the marker, return the drained
entries bottom-to-top together with the remaining stack. -/
def pop_back_to (isMarker : ParseStackEntry → Bool) (stack : List ParseStackEntry) :
    Except Failure (List ParseStackEntry × List ParseStackEntry) :=
  match stack.findIdx? isMarker with
  | none => .error (.err (.synErr "Could not find start of structure"))
  | some k => .ok ((stack.take k).reverse, stack.drop (k + 1))

/-- process_array (parsing/objects.rs). -/
def process_array (stack : List ParseStackEntry) : Except Failure (List ParseStackEntry) :=
  match pop_back_to is_begin_array stack with
  | .error e => .error e
  | .ok (entries, rest) =>
    match objs_of_entries entries with
    | none => .error (.err (.synErr "Unrecognized token inside array"))
    | some os => .ok (.obj (.array os) :: rest)

/-- process_dictionary (parsing/objects.rs). -/
def process_dictionary (stack : List ParseStackEntry) : Except Failure (List ParseStackEntry) :=
  match pop_back_to is_begin_dictionary stack with
  | .error e => .error e
  | .ok (entries, rest) =>
    match dict_of_entries entries [] with
    | .error e => .error e
    | .ok d => .ok (.obj (.dictionary d) :: rest)

/-- The filter loop of process_stream (parsing/objects.rs): iterate over
dict[Filter], dispatch each name. FlateDecode calls the external zlib
inflate, given here as an explicit decoder argument (the spec directs that
the registry be passed in); its failure hits an unwrap, a panic. Any
other name is Err(UnknownFilter). -/
def apply_filters (inflate : List Nat → Option (List Nat)) :
    List Object → List Nat → Except Failure (List Nat)
  | [], s => .ok s
  | f :: fs, s =>
    match as_name f with
    | .error e => .error e
    | .ok n =>
      if n = strBytes "FlateDecode" then
        match inflate s with
        | some d => apply_filters inflate fs d
        | none => .error .crash
      else .error (.err (.unknownFilter n))

/-- process_stream (parsing/objects.rs, lines 221-237): pop the top OBJECT
(with no check that it is a Dictionary), run the filter pipeline over
dict[Filter] (indexing a non-dictionary yields Null and iterating Null
yields nothing), and push Stream(popped object, decoded bytes). -/
def process_stream (inflate : List Nat → Option (List Nat))
    (stack : List ParseStackEntry) (s : List Nat) : Except Failure (List ParseStackEntry) :=
  match pop_obj stack with
  | .error e => .error e
  | .ok (d, rest) =>
    match apply_filters inflate (objIter (objGet d (strBytes "Filter"))) s with
    | .error e => .error e
    | .ok decoded => .ok (.obj (.stream d decoded) :: rest)

/-- process_indirect (parsing/objects.rs, lines 239-250): pop the
generation then the number, both through as_int, and push an IndirectRef
narrowed by the wrapping casts `number as u32` and `generation as u16`,
that is mod 2^32 and mod 2^16, with no range check. -/
def process_indirect (stack : List ParseStackEntry) : Except Failure (List ParseStackEntry) :=
  match pop_obj stack with
  | .error e => .error e
  | .ok (g, r1) =>
    match as_int g with
    | .error e => .error e
    | .ok gi =>
      match pop_obj r1 with
      | .error e => .error e
      | .ok (n, r2) =>
        match as_int n with
        | .error e => .error e
        | .ok ni => .ok (.obj (.indirect ⟨ni % 2 ^ 32, gi % 2 ^ 16⟩) :: r2)

/-- The parse loop of src/parsing/objects.rs specialised to the two
keyword handlers installed by parse_object_until_keyword: the obj handler
(process_indirect, then pop the Indirect just pushed and record it as the
envelope identity) and the end handler (pop the result object and stop).
The handler-map arm of the source match precedes every literal keyword
arm, which the two leading tests reproduce; when the end keyword equals
"obj" the second HashMap insert has overwritten the first, which the test
order also reproduces. Every parse_token success consumes at least one
byte, so fuel = buffer length plus one suffices and the fuel-exhausted
branch is unreachable. -/
def parse_loop (inflate : List Nat → Option (List Nat)) (end_keyword : List Nat) :
    Nat → List Nat → List ParseStackEntry → Option IndirectRef →
    Except Failure ((Option IndirectRef × Object) × List Nat)
  | 0, _, _, _ => .error .crash
  | fuel + 1, raw, stack, ind =>
    match parse_token raw with
    | .error e => .error e
    | .ok (t, raw2) =>
      match t with
      | .keyword k =>
        if k = end_keyword then
          match pop_obj stack with
          | .error e => .error e
          | .ok (o, _) => .ok ((ind, o), raw2)
        else if k = OBJ_KEYWORD then
          match process_indirect stack with
          | .error e => .error e
          | .ok stack2 =>
            match pop_obj stack2 with
            | .error e => .error e
            | .ok (.indirect i, stack3) =>
              parse_loop inflate end_keyword fuel raw2 stack3 (some i)
            | .ok (_, _) => .error .crash
        else if k = strBytes "true" then
          parse_loop inflate end_keyword fuel raw2 (.obj (.boolean true) :: stack) ind
        else if k = strBytes "false" then
          parse_loop inflate end_keyword fuel raw2 (.obj (.boolean false) :: stack) ind
        else if k = strBytes "null" then
          parse_loop inflate end_keyword fuel raw2 (.obj .null :: stack) ind
        else if k = strBytes "R" then
          match process_indirect stack with
          | .error e => .error e
          | .ok stack2 => parse_loop inflate end_keyword fuel raw2 stack2 ind
        else .error (.err (.synErr "Unrecognized keyword"))
      | .integer i => parse_loop inflate end_keyword fuel raw2 (.obj (.integer i) :: stack) ind
      | .real x => parse_loop inflate end_keyword fuel raw2 (.obj (.real x) :: stack) ind
      | .literalString s =>
        parse_loop inflate end_keyword fuel raw2 (.obj (.string s) :: stack) ind
      | .hexadecimalString s =>
        parse_loop inflate end_keyword fuel raw2 (.obj (.string s) :: stack) ind
      | .name n => parse_loop inflate end_keyword fuel raw2 (.obj (.name n) :: stack) ind
      | .beginArray => parse_loop inflate end_keyword fuel raw2 (.beginArray :: stack) ind
      | .endArray =>
        (match process_array stack with
         | .error e => .error e
         | .ok stack2 => parse_loop inflate end_keyword fuel raw2 stack2 ind)
      | .beginDictionary =>
        parse_loop inflate end_keyword fuel raw2 (.beginDictionary :: stack) ind
      | .endDictionary =>
        (match process_dictionary stack with
         | .error e => .error e
         | .ok stack2 => parse_loop inflate end_keyword fuel raw2 stack2 ind)
      | .stream s =>
        match process_stream inflate stack s with
        | .error e => .error e
        | .ok stack2 => parse_loop inflate end_keyword fuel raw2 stack2 ind

/-- parse_object_until_keyword (src/parsing/objects.rs): run the loop from
an empty stack, returning the recorded envelope identity (if an obj
keyword was seen) with the result object. The tokenizer it drives is the
same as src/tokens.rs: the parsing/tokens.rs module itself is not under
src, and the spec describes a single tokenizer for both parsers. -/
def parse_object_until_keyword (inflate : List Nat → Option (List Nat))
    (raw : List Nat) (end_keyword : List Nat) :
    Except Failure ((Option IndirectRef × Object) × List Nat) :=
  parse_loop inflate end_keyword (raw.length + 1) raw [] none

end Parsing

/- ===== src/pdf_file.rs and src/parsing/pdf_file.rs =====

   The two files are identical except that only the parsing one has
   resolve and drives the newer object parser; one embedding covers both.
   The struct owns the bytes and a lazily built xref table; the table is
   modelled as an association list (all keys inserted by load_xref_table
   are distinct, so ordering is immaterial for lookup). -/

/-- PdfFile (pdf_file.rs): the file bytes plus the optional xref table. -/
structure PdfFile where
  raw : List Nat
  xref_table : Option (List (IndirectRef × Option Nat))

/-- last_xref_offset (pdf_file.rs): require the %%EOF marker WITH its
trailing LF (EOF_MARKER is the six bytes of "%%EOF" plus LF and the check
is ends_with), find the last startxref, read the keyword and the following
integer (a usize parse). -/
def last_xref_offset (raw : List Nat) : Except Failure Nat :=
  if EOF_MARKER.isSuffixOf raw then
    match last_position_of_sequence raw STARTXREF_KEYWORD with
    | .error e => .error e
    | .ok none => .error (.err (.synErr "Could not find startxref keyword"))
    | .ok (some idx) =>
      match parse_keyword (raw.drop idx) with
      | .error e => .error e
      | .ok (kw, raw2) =>
        if kw = STARTXREF_KEYWORD then
          match parse_number (2 ^ 64) raw2 with
          | .error e => .error e
          | .ok (off, _) => .ok off
        else .error (.err (.synErr "Could not read startxref keyword"))
  else .error (.err (.synErr "Could not find eof marker"))

/-- One 20-byte line of the xref subsection body (the loop body of
load_xref_table): slice raw[20*i .. 20*i+20] (out of range is a panic),
parse the 10-byte offset as usize and the 5-byte generation at bytes
11..16 as u16, and read byte 17 as the in-use flag (the letter n). -/
def xref_line (raw : List Nat) (first i : Nat) :
    Except Failure (IndirectRef × Option Nat) :=
  if 20 * i + 20 ≤ raw.length then
    let line := (raw.drop (20 * i)).take 20
    match rust_parse_unsigned (2 ^ 64) (line.take 10) with
    | none => .error (.err .parseInt)
    | some off =>
      match rust_parse_unsigned (2 ^ 16) ((line.drop 11).take 5) with
      | none => .error (.err .parseInt)
      | some gen =>
        .ok (⟨(first + i) % 2 ^ 32, gen⟩,
             if line.getD 17 0 = 110 then some off else none)
  else .error .crash

/-- The `for i in 0..length` loop of load_xref_table, producing the table
entries of the single subsection it reads. first + i is a u32 addition,
hence the mod 2^32 inside xref_line. -/
def xref_loop (raw : List Nat) (first : Nat) :
    Nat → Nat → Except Failure (List (IndirectRef × Option Nat))
  | _, 0 => .ok []
  | i, k + 1 =>
    match xref_line raw first i with
    | .error e => .error e
    | .ok entry =>
      match xref_loop raw first (i + 1) k with
      | .error e => .error e
      | .ok t => .ok (entry :: t)

/-- load_xref_table (pdf_file.rs), stateless form returning the table it
builds (the source stores it in self and is idempotent). It seeks to
last_xref_offset (an offset past the end of the buffer is a slice panic),
expects the xref keyword, reads ONE subsection header (two u32 parses) and
that one subsection body, and stops: no loop ever returns for further
subsections, and the trailer keyword is never looked for here. -/
def load_xref_table (raw : List Nat) :
    Except Failure (List (IndirectRef × Option Nat)) :=
  match last_xref_offset raw with
  | .error e => .error e
  | .ok off =>
    if off ≤ raw.length then
      match parse_keyword (raw.drop off) with
      | .error e => .error e
      | .ok (kw, raw2) =>
        if kw = XREF_KEYWORD then
          match parse_number (2 ^ 32) raw2 with
          | .error e => .error e
          | .ok (first, raw3) =>
            match parse_number (2 ^ 32) raw3 with
            | .error e => .error e
            | .ok (len, raw4) =>
              match parse_whitespace raw4 with
              | .error e => .error e
              | .ok ((), raw5) => xref_loop raw5 first 0 len
        else .error (.err (.synErr "Could not find xref keyword"))
    else .error .crash

/-- HashMap::get on the xref table. -/
def xref_lookup (t : List (IndirectRef × Option Nat)) (r : IndirectRef) :
    Option (Option Nat) :=
  match t.find? (fun e => e.1 == r) with
  | some e => some e.2
  | none => none

/-- indirect_object_offset (pdf_file.rs): NotLoaded without a table,
ObjectNotFound on a missing key and on a free entry. -/
def indirect_object_offset (f : PdfFile) (r : IndirectRef) : Except Failure Nat :=
  match f.xref_table with
  | none => .error (.err (.notLoaded "xref_table"))
  | some t =>
    match xref_lookup t r with
    | none => .error (.err (.objectNotFound r.number r.generation))
    | some none => .error (.err (.objectNotFound r.number r.generation))
    | some (some off) => .ok off

/-- resolve (src/parsing/pdf_file.rs, lines 123-147): a non-Indirect input
is returned unchanged; otherwise look the offset up, parse one object at
that offset with terminator endobj (an offset past the end of the buffer
is a slice panic), and compare the returned envelope identity with the
requested reference: equal gives the inner object, different is the
number/generation mismatch syntax error, absent is the missing obj prefix
syntax error. -/
def resolve (inflate : List Nat → Option (List Nat)) (f : PdfFile) (o : Object) :
    Except Failure Object :=
  match o with
  | .indirect r =>
    (match indirect_object_offset f r with
     | .error e => .error e
     | .ok off =>
       if off ≤ f.raw.length then
         match Parsing.parse_object_until_keyword inflate (f.raw.drop off) ENDOBJ_KEYWORD with
         | .error e => .error e
         | .ok ((ind, obj), _) =>
           match ind with
           | some i =>
             if i = r then .ok obj
             else .error (.err (.synErr
               "Object number and generation number do not match values in xref table"))
           | none => .error (.err (.synErr "Could not find obj prefix"))
       else .error .crash)
  | _ => .ok o

/- ===== Helper lemmas ===== -/

/-- Every failure of ws_loop is the EOF error. -/
lemma ws_loop_error (l : List Nat) : ∀ (b : Bool) (e : Failure),
    ws_loop b l = .error e → e = .err .eof := by
  induction l with
  | nil =>
    intro b e h
    cases b <;> simp [ws_loop] at h <;> exact h.symm
  | cons c rest ih =>
    intro b e h
    cases b with
    | true =>
      rw [ws_loop] at h
      split at h
      · exact ih false e h
      · exact ih true e h
    | false =>
      rw [ws_loop] at h
      split at h
      · exact ih false e h
      · split at h
        · exact ih true e h
        · cases h

/-- Every failure of parse_whitespace is the EOF error. -/
lemma parse_whitespace_error (l : List Nat) (e : Failure)
    (h : parse_whitespace l = .error e) : e = .err .eof :=
  ws_loop_error l false e h

/-- Every failure of scan_while is the EOF error. -/
lemma scan_while_error (p : Nat → Bool) (l : List Nat) : ∀ e : Failure,
    scan_while p l = .error e → e = .err .eof := by
  induction l with
  | nil =>
    intro e h
    simp [scan_while] at h
    exact h.symm
  | cons c rest ih =>
    intro e h
    rw [scan_while] at h
    split at h
    · cases hs : scan_while p rest with
      | ok n => rw [hs] at h; cases h
      | error e2 =>
        rw [hs] at h
        injection h with h2
        exact h2 ▸ ih e2 hs
    · cases h

/-- Every failure of parse_keyword is the EOF error. -/
lemma parse_keyword_error (raw : List Nat) (e : Failure)
    (h : parse_keyword raw = .error e) : e = .err .eof := by
  rw [parse_keyword] at h
  cases hs : scan_while is_alphabetic_char raw with
  | ok n => rw [hs] at h; cases h
  | error e2 => rw [hs] at h; cases h; exact scan_while_error _ _ _ hs

/-- Every failure of parse_number is the EOF error or the ParseInt error. -/
lemma parse_number_error (bound : Nat) (raw : List Nat) (e : Failure)
    (h : parse_number bound raw = .error e) : e = .err .eof ∨ e = .err .parseInt := by
  rw [parse_number] at h
  cases hw : parse_whitespace raw with
  | error e2 =>
    rw [hw] at h; cases h
    exact Or.inl (parse_whitespace_error _ _ hw)
  | ok v =>
    obtain ⟨u, r1⟩ := v
    cases u
    simp only [hw] at h
    cases hs : scan_while is_numeric_char r1 with
    | error e2 =>
      simp only [hs] at h
      injection h with h2
      exact Or.inl (h2 ▸ scan_while_error _ _ _ hs)
    | ok n =>
      simp only [hs] at h
      cases hu : rust_parse_unsigned bound (r1.take n) with
      | none =>
        simp only [hu] at h
        injection h with h2
        exact Or.inr h2.symm
      | some w => simp only [hu] at h; cases h

/-- Every failure of last_position_of_sequence is a crash. -/
lemma last_position_of_sequence_error (buf seq : List Nat) (e : Failure)
    (h : last_position_of_sequence buf seq = .error e) : e = .crash := by
  rw [last_position_of_sequence] at h
  split at h
  · cases h
  · cases h; rfl

/-- Skipping whitespace in front of a byte that is neither whitespace nor
the comment sign is the identity. -/
lemma parse_whitespace_skip (c : Nat) (rest : List Nat)
    (h1 : is_whitespace_char c = false) (h2 : c ≠ 37) :
    parse_whitespace (c :: rest) = .ok ((), c :: rest) := by
  simp [parse_whitespace, ws_loop, h1, h2]

/-- scan_while over a run satisfying p followed by a byte failing p stops
exactly at the end of the run. -/
lemma scan_while_append (p : Nat → Bool) (ds : List Nat) (c : Nat) (rest : List Nat)
    (h1 : ∀ d ∈ ds, p d = true) (h2 : p c = false) :
    scan_while p (ds ++ c :: rest) = .ok ds.length := by
  induction ds with
  | nil => simp [scan_while, h2]
  | cons d ds ih =>
    have hd : p d = true := h1 d (by simp)
    have hrec := ih (fun x hx => h1 x (by simp [hx]))
    simp only [List.cons_append, scan_while, hd, if_pos, List.append_eq, hrec,
      List.length_cons]

/-- Facts about an ASCII digit needed to route it through the tokenizer. -/
lemma digit_char_facts (c : Nat) (h : is_digit_char c = true) :
    is_whitespace_char c = false ∧ c ≠ 37 ∧ is_numeric_char c = true ∧
      c ≠ 46 ∧ c ≠ 43 := by
  simp only [is_digit_char, Bool.and_eq_true, decide_eq_true_eq] at h
  refine ⟨?_, ?_, ?_, ?_, ?_⟩
  · simp only [is_whitespace_char, Bool.or_eq_false_iff, decide_eq_false_iff_not]
    omega
  · omega
  · simp only [is_numeric_char, Bool.or_eq_true, decide_eq_true_eq, Bool.and_eq_true]
    omega
  · omega
  · omega

/-- A digit run contains no dot. -/
lemma digit_run_no_dot (ds : List Nat) (h : ∀ d ∈ ds, is_digit_char d = true) :
    ds.contains 46 = false := by
  induction ds with
  | nil => rfl
  | cons d t ih =>
    have hd := digit_char_facts d (h d (by simp))
    have ht := ih (fun x hx => h x (by simp [hx]))
    simp only [List.contains_cons, Bool.or_eq_false_iff, ht, and_true]
    simpa using fun hh => hd.2.2.2.1 hh.symm

/-- The unsigned Rust parse of a pure nonempty digit run below the bound is
its decimal value. -/
lemma rust_parse_unsigned_digits (bound : Nat) (ds : List Nat) (hne : ds ≠ [])
    (h : ∀ d ∈ ds, is_digit_char d = true) (hv : digitsToNat ds < bound) :
    rust_parse_unsigned bound ds = some (digitsToNat ds) := by
  cases ds with
  | nil => exact absurd rfl hne
  | cons d t =>
    have hd := digit_char_facts d (h d (by simp))
    have hall : (d :: t).all is_digit_char = true := by
      simp only [List.all_eq_true]; exact h
    simp [rust_parse_unsigned, hd.2.2.2.2, hall, hv]

/-- The entry built from xref line i carries object number
(first + i) mod 2^32. -/
lemma xref_line_number (raw : List Nat) (first i : Nat) (r : IndirectRef)
    (v : Option Nat) (h : xref_line raw first i = .ok (r, v)) :
    r.number = (first + i) % 2 ^ 32 := by
  simp only [xref_line] at h
  split at h
  · cases h1 : rust_parse_unsigned (2 ^ 64) (((raw.drop (20 * i)).take 20).take 10) with
    | none => simp only [h1] at h; cases h
    | some off =>
      simp only [h1] at h
      cases h2 : rust_parse_unsigned (2 ^ 16) ((((raw.drop (20 * i)).take 20).drop 11).take 5) with
      | none => simp only [h2] at h; cases h
      | some gen =>
        simp only [h2] at h
        injection h with h3
        injection h3 with h4 h5
        rw [← h4]
  · cases h

/-- Every entry of the table built by the xref loop started at index i for
k lines has an object number (first + j) mod 2^32 with j among the line
indices i ≤ j < i + k. -/
lemma xref_loop_mem (raw : List Nat) (first : Nat) : ∀ (k i : Nat)
    (t : List (IndirectRef × Option Nat)), xref_loop raw first i k = .ok t →
    ∀ (r : IndirectRef) (v : Option Nat), (r, v) ∈ t →
      ∃ j, i ≤ j ∧ j < i + k ∧ r.number = (first + j) % 2 ^ 32 := by
  intro k
  induction k with
  | zero =>
    intro i t h r v hm
    rw [xref_loop] at h
    injection h with h2
    rw [← h2] at hm
    cases hm
  | succ k ih =>
    intro i t h r v hm
    rw [xref_loop] at h
    cases hl : xref_line raw first i with
    | error e => rw [hl] at h; cases h
    | ok entry =>
      rw [hl] at h
      cases hrec : xref_loop raw first (i + 1) k with
      | error e => rw [hrec] at h; cases h
      | ok t2 =>
        rw [hrec] at h
        injection h with h2
        rw [← h2] at hm
        rcases List.mem_cons.mp hm with hm1 | hm2
        · obtain ⟨er, ev⟩ := entry
          injection hm1 with hr hv
          refine ⟨i, le_refl i, by omega, ?_⟩
          rw [hr]
          exact xref_line_number raw first i er ev hl
        · obtain ⟨j, hj1, hj2, hj3⟩ := ih (i + 1) t2 hrec r v hm2
          exact ⟨j, by omega, by omega, hj3⟩

/- ===== Claim theorems ===== -/

/-- Claim C1 (code_bug evidence): parse_token is not total in the claimed
sense. On the single byte 0x27 (an unrecognised token) the Syntax error
construction slices raw[..5] out of a 1-byte buffer and the program
panics instead of returning an Error value; on the two bytes open-paren
backslash the literal-string scanner steps two bytes past the lone
backslash and the next peek slices out of range, again a panic. -/
theorem c1_parse_token_crashes :
    parse_token [39] = .error .crash ∧ parse_token [40, 92] = .error .crash :=
  ⟨rfl, rfl⟩

/-- Claim C2 (counterexample): the input "-42" followed by a space does not
tokenize to an Integer at all; the maximal numeric run "-42" contains no
dot, so it is parsed as a usize, and the unsigned parser rejects the minus
sign with a ParseInt error. -/
theorem c2_counterexample :
    parse_token (strBytes "-42 ") = .error (.err .parseInt) := rfl

/-- Claim C2 (amended): Integer tokens are unsigned. A maximal numeric run
that is a pure digit run (no dot, no sign) with value below 2^64, followed
by a non-numeric byte, tokenizes to the Integer with that decimal value;
negative integers are not representable in a Token.integer. -/
theorem c2_amended (ds rest : List Nat) (c : Nat) (h1 : ds ≠ [])
    (h2 : ∀ d ∈ ds, is_digit_char d = true) (h3 : is_numeric_char c = false)
    (h4 : digitsToNat ds < 2 ^ 64) :
    parse_token (ds ++ c :: rest) = .ok (.integer (digitsToNat ds), c :: rest) := by
  cases ds with
  | nil => exact absurd rfl h1
  | cons d t =>
    have hd := digit_char_facts d (h2 d (by simp))
    have hnum : ∀ x ∈ d :: t, is_numeric_char x = true :=
      fun x hx => (digit_char_facts x (h2 x hx)).2.2.1
    have hws : parse_whitespace (d :: (t ++ c :: rest)) = .ok ((), d :: (t ++ c :: rest)) :=
      parse_whitespace_skip d _ hd.1 hd.2.1
    have hsw : scan_while is_numeric_char (d :: (t ++ c :: rest)) = .ok (t.length + 1) := by
      simpa using scan_while_append is_numeric_char (d :: t) c rest hnum h3
    have hnd : ¬(46 = d ∨ 46 ∈ t) := by
      rintro (h46 | h46)
      · exact hd.2.2.2.1 h46.symm
      · exact (digit_char_facts 46 (h2 46 (by simp [h46]))).2.2.2.1 rfl
    have hparse : rust_parse_unsigned 18446744073709551616 (d :: t) =
        some (digitsToNat (d :: t)) :=
      rust_parse_unsigned_digits _ _ (by simp) h2 h4
    have htake : (d :: (t ++ c :: rest)).take (t.length + 1) = d :: t := by simp
    have hdrop : (d :: (t ++ c :: rest)).drop (t.length + 1) = c :: rest := by simp
    simp [parse_token, parse_numeric, List.cons_append, hws, hsw, htake, hdrop,
      hnd, hparse, hd.2.2.1]

/-- Claim C2 (amended, witness): the pure digit run 42 tokenizes to
Integer 42. -/
theorem c2_amended_witness :
    parse_token (strBytes "42 ") = .ok (.integer 42, [32]) :=
  c2_amended [52, 50] [] 32 (by decide) (by decide) (by decide) (by decide)

/-- Claim C3 (counterexample): in the parser of src/parsing/objects.rs a
Stream object arises with a NON-dictionary preceding object and the parse
succeeds: the input 5 stream..endstream yields Stream(Integer 5, body)
with no syntax error, because process_stream pops the top object without
checking its type and indexing Filter on a non-dictionary yields Null. -/
theorem c3_counterexample :
    Parsing.parse_object_until_keyword (fun _ => none)
        (strBytes "5 stream\nX\nendstream end ") (strBytes "end") =
      .ok ((none, .stream (.integer 5) (strBytes "X\n")), strBytes " ") := rfl

/-- Claim C3 (amended): only the legacy parser of src/objects.rs enforces
the invariant: its Stream arm pops the top entry and fails with a syntax
error unless it is a Dictionary (and pushes the Stream when it is); the
process_stream of src/parsing/objects.rs pops the top object with no type
check, so whenever that object indexes Filter to Null the parse pushes
Stream(object, body) for ANY preceding object. -/
theorem c3_amended (endKw : List Nat) (inflate : List Nat → Option (List Nat))
    (stack : List ParseStackEntry) (o : Object) (body : List Nat)
    (d : List (List Nat × Object))
    (h1 : isDictionary o = false)
    (h2 : objGet o (strBytes "Filter") = .null) :
    Objects.handle_token endKw (.obj o :: stack) (.stream body) =
        .error (.err (.synErr "Could not find stream dictionary")) ∧
    Parsing.process_stream inflate (.obj o :: stack) body =
        .ok (.obj (.stream o body) :: stack) ∧
    Objects.handle_token endKw (.obj (.dictionary d) :: stack) (.stream body) =
        .ok (.next (.obj (.stream (.dictionary d) body) :: stack)) := by
  refine ⟨?_, ?_, rfl⟩
  · cases o <;> first
      | rfl
      | (exfalso; simp [isDictionary] at h1)
  · simp [Parsing.process_stream, Parsing.pop_obj, h2, objIter, Parsing.apply_filters]

/-- Claim C3 (amended, witness): instantiated at the Integer 5 descriptor:
the legacy parser errors, the newer one builds Stream(Integer 5, body). -/
theorem c3_amended_witness :
    Objects.handle_token (strBytes "end") [.obj (.integer 5)] (.stream [88]) =
        .error (.err (.synErr "Could not find stream dictionary")) ∧
    Parsing.process_stream (fun _ => none) [.obj (.integer 5)] [88] =
        .ok [.obj (.stream (.integer 5) [88])] ∧
    Objects.handle_token (strBytes "end") [.obj (.dictionary [])] (.stream [88]) =
        .ok (.next [.obj (.stream (.dictionary []) [88])]) :=
  c3_amended (strBytes "end") (fun _ => none) [] (.integer 5) [88] [] (by rfl) (by rfl)

/-- A buffer whose xref section has TWO classical subsections: subsection
0 1 (the free object 0) and subsection 5 1 (object 5 in use at offset 42),
followed by the trailer keyword. -/
def c4buf : List Nat :=
  strBytes "xref\n0 1\n0000000000 65535 f\r\n5 1\n0000000042 00000 n\r\ntrailer\nstartxref\n0\n%%EOF\n"

/-- Claim C4 (counterexample): on the two-subsection buffer c4buf the
loaded table holds exactly the one entry of the FIRST subsection, and the
object (5, 0) recorded by the second subsection is absent from it. -/
theorem c4_counterexample :
    load_xref_table c4buf = .ok [(⟨0, 65535⟩, none)] ∧
    xref_lookup [(⟨0, 65535⟩, none)] ⟨5, 0⟩ = none :=
  ⟨rfl, rfl⟩

/-- Claim C4 (amended): load_xref_table reads exactly one subsection: when
it succeeds, every entry of the resulting table has an object number
(first + j) mod 2^32 with j below the length read from the FIRST
subsection header; entries of any later subsection are never populated. -/
theorem c4_amended (raw raw2 raw3 raw4 raw5 : List Nat) (off first len : Nat)
    (t : List (IndirectRef × Option Nat))
    (h1 : last_xref_offset raw = .ok off)
    (h2 : off ≤ raw.length)
    (h3 : parse_keyword (raw.drop off) = .ok (XREF_KEYWORD, raw2))
    (h4 : parse_number (2 ^ 32) raw2 = .ok (first, raw3))
    (h5 : parse_number (2 ^ 32) raw3 = .ok (len, raw4))
    (h6 : parse_whitespace raw4 = .ok ((), raw5))
    (h7 : load_xref_table raw = .ok t) :
    ∀ (r : IndirectRef) (v : Option Nat), (r, v) ∈ t →
      ∃ j, j < len ∧ r.number = (first + j) % 2 ^ 32 := by
  intro r v hm
  rw [load_xref_table] at h7
  simp only [h1] at h7
  rw [if_pos h2] at h7
  simp only [h3, if_true] at h7
  simp only [h4, h5, h6] at h7
  obtain ⟨j, hj1, hj2, hj3⟩ := xref_loop_mem raw5 first len 0 t h7 r v hm
  exact ⟨j, by omega, hj3⟩

/-- Claim C4 (amended, witness): on c4buf the table entry for object 0 is
covered by the first subsection header 0 1. -/
theorem c4_amended_witness :
    ∃ j, j < 1 ∧ (IndirectRef.mk 0 65535).number = (0 + j) % 2 ^ 32 :=
  c4_amended c4buf (c4buf.drop 4) (c4buf.drop 6) (c4buf.drop 8) (c4buf.drop 9)
    0 0 1 [(⟨0, 65535⟩, none)] rfl (Nat.zero_le _) rfl rfl rfl rfl rfl
    ⟨0, 65535⟩ none (by simp)

/-- Claim C5: resolve on Indirect(r) with a live xref entry parses at the
xref-recorded offset with terminator endobj and returns the inner object
exactly when the envelope identity equals r: equal gives the inner object,
different gives the number/generation mismatch syntax error, and a missing
envelope gives the missing obj prefix syntax error. -/
theorem c5_resolve_identity (inflate : List Nat → Option (List Nat)) (f : PdfFile)
    (r : IndirectRef) (off : Nat) (indOpt : Option IndirectRef) (obj : Object)
    (rest : List Nat)
    (h1 : indirect_object_offset f r = .ok off)
    (h2 : off ≤ f.raw.length)
    (h3 : Parsing.parse_object_until_keyword inflate (f.raw.drop off) ENDOBJ_KEYWORD =
            .ok ((indOpt, obj), rest)) :
    resolve inflate f (.indirect r) =
      match indOpt with
      | some i =>
        if i = r then .ok obj
        else .error (.err (.synErr
          "Object number and generation number do not match values in xref table"))
      | none => .error (.err (.synErr "Could not find obj prefix")) := by
  rw [resolve]
  simp only [h1]
  rw [if_pos h2]
  simp only [h3]
  cases indOpt <;> rfl

/-- A one-object file whose xref table records object (1, 0) at offset 0,
where the envelope 1 0 obj wraps the Integer 42. -/
def c5file : PdfFile :=
  ⟨strBytes "1 0 obj 42 endobj ", some [(⟨1, 0⟩, some 0)]⟩

/-- Claim C5 (witness): resolving Indirect(1, 0) on c5file parses the
envelope at offset 0, the identity matches, and the inner Integer 42 is
returned. -/
theorem c5_resolve_identity_witness :
    resolve (fun _ => none) c5file (.indirect ⟨1, 0⟩) = .ok (.integer 42) :=
  c5_resolve_identity (fun _ => none) c5file ⟨1, 0⟩ 0 (some ⟨1, 0⟩) (.integer 42)
    (strBytes " ") rfl (Nat.zero_le _) rfl

/-- Claim C6 (code_bug evidence): last_position_of_sequence is not total on
a needle longer than the buffer: the bound buf.len() - seq.len()
underflows and the program panics (directly in debug, through an
out-of-range slice in release) instead of returning None. Shown on the
empty buffer against the startxref needle and on a 2-byte buffer against
a 3-byte needle. -/
theorem c6_find_last_underflow :
    last_position_of_sequence [] STARTXREF_KEYWORD = .error .crash ∧
    last_position_of_sequence [97, 98] (strBytes "abc") = .error .crash :=
  ⟨rfl, rfl⟩

/-- Claim C7 (code_bug evidence): last_position_of_sequence misses an
occurrence whose last byte is the final byte of the buffer: in [97, 98, 99]
the needle [99] occurs at index 2 (seq_at confirms it), but the loop bound
0 .. buf.len() - seq.len() is exclusive, index 2 is never tried, and the
scan returns None. -/
theorem c7_find_last_misses_final :
    seq_at [97, 98, 99] [99] 2 = true ∧
    last_position_of_sequence [97, 98, 99] [99] = .ok none :=
  ⟨rfl, rfl⟩

/-- Claim C8 (counterexample): a buffer ending with the five bytes %%EOF
and no trailing newline fails the end-of-file marker check of
last_xref_offset with the eof marker syntax error. -/
theorem c8_counterexample :
    last_xref_offset (strBytes "startxref\n5\n%%EOF") =
      .error (.err (.synErr "Could not find eof marker")) := rfl

/-- Claim C8 (amended): the marker check accepts exactly the buffers that
end with %%EOF followed by one LF (EOF_MARKER is those six bytes and the
check is ends_with): last_xref_offset raises the eof marker syntax error
precisely on the buffers that do not have that six-byte suffix. -/
theorem c8_amended (raw : List Nat) :
    last_xref_offset raw = .error (.err (.synErr "Could not find eof marker")) ↔
      EOF_MARKER.isSuffixOf raw = false := by
  rw [last_xref_offset]
  cases hs : EOF_MARKER.isSuffixOf raw with
  | false => simp [hs]
  | true =>
    simp only [hs, if_true, Bool.true_eq_false, iff_false]
    intro h
    cases hl : last_position_of_sequence raw STARTXREF_KEYWORD with
    | error e =>
      simp only [hl] at h
      injection h with h2
      rw [last_position_of_sequence_error _ _ _ hl] at h2
      cases h2
    | ok o =>
      simp only [hl] at h
      cases o with
      | none =>
        simp only [Except.error.injEq, Failure.err.injEq, Error.synErr.injEq] at h
        exact absurd h (by decide)
      | some idx =>
        cases hk : parse_keyword (raw.drop idx) with
        | error e =>
          simp only [hk] at h
          injection h with h2
          rw [parse_keyword_error _ _ hk] at h2
          cases h2
        | ok kw =>
          obtain ⟨kwl, raw2⟩ := kw
          simp only [hk] at h
          by_cases hkw : kwl = STARTXREF_KEYWORD
          · rw [if_pos hkw] at h
            cases hn : parse_number (2 ^ 64) raw2 with
            | error e =>
              simp only [hn] at h
              injection h with h2
              rcases parse_number_error _ _ _ hn with he | he <;> (rw [he] at h2; cases h2)
            | ok v =>
              obtain ⟨off, rr⟩ := v
              simp only [hn] at h
              cases h
          · rw [if_neg hkw] at h
            simp only [Except.error.injEq, Failure.err.injEq, Error.synErr.injEq] at h
            exact absurd h (by decide)

/-- Claim C8 (amended, witness): a bare-%%EOF buffer indeed lacks the
six-byte suffix, by the equivalence applied to the concrete buffer. -/
theorem c8_amended_witness :
    EOF_MARKER.isSuffixOf (strBytes "startxref\n5\n%%EOF") = false :=
  (c8_amended (strBytes "startxref\n5\n%%EOF")).mp rfl

/-- Claim C9 (counterexample): the literal string (a backslash-CR b)
decodes to the three bytes a LF b, not to the two bytes a b that deleting
the backslash-EOL pair would give: the backslash-CR escape EMITS an LF. -/
theorem c9_counterexample :
    parse_literal_string [40, 97, 92, 13, 98, 41] = .ok ([97, 10, 98], []) ∧
      [97, 10, 98] ≠ [97, 98] :=
  ⟨rfl, by decide⟩

/-- Claim C9 (amended): backslash-LF produces no output byte, but
backslash-CR and backslash-CR-LF each produce one LF output byte (the CR
forms are normalised like bare newlines, not deleted). -/
theorem c9_amended (rest : List Nat) :
    parse_escape_sequence (92 :: 10 :: rest) = .ok (none, rest) ∧
    parse_escape_sequence (92 :: 13 :: 10 :: rest) = .ok (some 10, rest) ∧
    parse_escape_sequence (92 :: 13 :: rest) =
      .ok (some 10, if rest.head? = some 10 then rest.tail else rest) := by
  refine ⟨rfl, rfl, ?_⟩
  by_cases hh : rest.head? = some 10 <;>
    simp [parse_escape_sequence, hh, is_octal_char]

/-- Claim C10: the R and obj keyword handlers narrow the two popped
integers with wrapping casts: process_indirect of src/parsing/objects.rs
succeeds on any two popped integers g (generation, on top) and n (number,
below) and stores number = n mod 2^32 and generation = g mod 2^16 with no
range check, as does the R arm of the legacy parser; the concrete
conjunct shows 4294967298 truncating to 2 and 70000 to 4464 through a
full parse. -/
theorem c10_wrapping_casts (stack : List ParseStackEntry) (n g : Nat) :
    Parsing.process_indirect (.obj (.integer g) :: .obj (.integer n) :: stack) =
        .ok (.obj (.indirect ⟨n % 2 ^ 32, g % 2 ^ 16⟩) :: stack) ∧
    Objects.handle_token ENDOBJ_KEYWORD (.obj (.integer g) :: .obj (.integer n) :: stack)
        (.keyword (strBytes "R")) =
        .ok (.next (.obj (.indirect ⟨n % 2 ^ 32, g % 2 ^ 16⟩) :: stack)) ∧
    Parsing.parse_object_until_keyword (fun _ => none)
        (strBytes "4294967298 70000 R end ") (strBytes "end") =
        .ok ((none, .indirect ⟨2, 4464⟩), strBytes " ") :=
  ⟨rfl, rfl, rfl⟩
